import Mathlib

set_option maxHeartbeats 1000000

/-! Verification development for the retrieval-and-consensus engine of the
pf-rater repository.  The Python modules `utils/ratings.py`,
`retrieval/search.py`, `services/fact_sources.py` and
`utils/source_tracking.py` are shallowly embedded below: pure functions
become Lean functions over `String`, `List`, `Nat`, `Rat` and `Real`;
the external collaborators (embedding provider, vector index, HTTP API,
generative extraction) are passed in as explicit arguments or oracles. -/

/-! ## String helpers with Python semantics -/

/-- Lowercase every character, as Python `str.lower` does on ASCII text. -/
def pyLower (s : String) : String :=
  String.mk (s.data.map Char.toLower)

/-- Strip leading and trailing whitespace, as Python `str.strip()`. -/
def pyStrip (s : String) : String :=
  String.mk (((s.data.dropWhile Char.isWhitespace).reverse.dropWhile Char.isWhitespace).reverse)

/-- Does the second list start with the first one? -/
def leadMatch : List Char → List Char → Bool
  | [], _ => true
  | _ :: _, [] => false
  | a :: as, b :: bs => a == b && leadMatch as bs

/-- Does `needle` occur contiguously inside the second list? -/
def hasSub (needle : List Char) : List Char → Bool
  | [] => leadMatch needle []
  | c :: t => leadMatch needle (c :: t) || hasSub needle t

/-- Substring containment, the Python expression `needle in hay`. -/
def strContains (hay needle : String) : Bool :=
  hasSub needle.data hay.data

/-- Split a character list at every separator character, keeping empty pieces
(the helper behind `pySplit`). -/
def splitCharsAux (p : Char → Bool) : List Char → List Char → List String
  | acc, [] => [String.mk acc.reverse]
  | acc, c :: rest =>
    if p c then String.mk acc.reverse :: splitCharsAux p [] rest
    else splitCharsAux p (c :: acc) rest

/-- Split a string at every character satisfying `p`, keeping empty pieces.
Python `str.split()` and `re.split` collapse or keep empties differently;
callers below filter empties out exactly where Python drops them. -/
def pySplit (p : Char → Bool) (s : String) : List String :=
  splitCharsAux p [] s.data

/-- Remove the characters of `cs` from both ends, Python `w.strip(chars)`. -/
def pyStripChars (cs : List Char) (s : String) : String :=
  String.mk (((s.data.dropWhile (fun c => cs.contains c)).reverse.dropWhile
      (fun c => cs.contains c)).reverse)

/-- In-order deduplication of a list of strings (the seen-set loops of the
Python code). -/
def dedupInOrder (xs : List String) : List String :=
  xs.foldl (fun acc w => if acc.contains w then acc else acc ++ [w]) []

/-- First character is uppercase, the Python test `w[0].isupper()` guarded by
`w` being nonempty. -/
def firstCharUpper (w : String) : Bool :=
  match w.data with
  | [] => false
  | c :: _ => c.isUpper

/-! ## Rating Normalizer (utils/ratings.py) -/

/-- The PolitiFact taxonomy table, in Python dict insertion order. -/
def POLITIFACT_MAP : List (String × Nat) :=
  [("true", 5), ("mostly true", 4), ("half true", 3), ("half-true", 3),
   ("mostly false", 2), ("false", 1), ("pants on fire", 0)]

/-- The generic fallback table, in Python dict insertion order. -/
def GENERIC_MAP : List (String × Nat) :=
  [("accurate", 5), ("correct", 5), ("supported", 4), ("mixture", 3),
   ("mixed", 3), ("partly false", 3), ("unproven", 3), ("missing context", 3),
   ("misleading", 2), ("incorrect", 1), ("unsupported", 1), ("no evidence", 1),
   ("fake", 1)]

/-- The merged iteration order of the Python expression
`{**POLITIFACT_MAP, **GENERIC_MAP}.items()`: the two key sets are disjoint, so
this is the first table followed by the second. -/
def RATING_TABLE : List (String × Nat) :=
  POLITIFACT_MAP ++ GENERIC_MAP

/-- Embeds `normalize_rating_text`: lowercase, strip whitespace, then delete
the punctuation characters removed by `re.sub("[!?.]", "", rating)`.  A Python
`None` argument (which yields the empty string) is modelled by `""`. -/
def normalize_rating_text (rating : String) : String :=
  String.mk ((pyStrip (pyLower rating)).data.filter
    (fun c => !(c == '!' || c == '?' || c == '.')))

/-- Embeds `standardize_rating`: the first table entry whose key occurs as a
substring of the normalized rating wins; no hit yields `none`. -/
def standardize_rating (rating : String) : Option Nat :=
  (RATING_TABLE.find? (fun kv => strContains (normalize_rating_text rating) kv.1)).map
    (fun kv => kv.2)

/-! ## Result shapes (§3 of the spec, dict shapes in the code) -/

/-- One search result, the unified dict shape produced by both the archive
search and the external client.  Keys that a given producer leaves out of its
dict are modelled by `""` or `none`. -/
structure SearchResult where
  source : String
  publisher : String
  claim : String
  rating : String
  explanation : String
  url : String
  similarity_score : Option ℚ
  review_date : String
  language : String
deriving DecidableEq, Repr

/-- A named group of results. -/
structure SourceGroup where
  source_name : String
  results : List SearchResult
deriving DecidableEq, Repr

/-- One row of the archive metadata table. -/
structure ArchiveRow where
  source : String
  claim : String
  verdict : String
  explanation : String
  url : String
deriving DecidableEq, Repr

/-! ## Vector Index Adapter and Lexical Boost (retrieval/search.py) -/

/-- Truncate long explanations to 500 characters plus an ellipsis marker. -/
def truncExplanation (e : String) : String :=
  if 500 < e.length then String.mk (e.data.take 500) ++ "..." else e

/-- One dense-retrieval result dict built in the loop over the k nearest
rows.  The similarity mapping from raw index distances happens before this
point, so the score arrives here as a plain number. -/
def mkVecResult (row : ArchiveRow) (sim : ℚ) : SearchResult :=
  { source := "PolitiFact", publisher := "PolitiFact", claim := row.claim,
    rating := row.verdict, explanation := truncExplanation row.explanation,
    url := row.url, similarity_score := some sim, review_date := "",
    language := "" }

/-- The stoplist of capitalized sentence starters ignored by the keyword
extraction. -/
def keywordIgnore : List String :=
  ["What", "When", "Where", "Which", "This", "That", "There", "Here", "Does",
   "Is", "Are", "Can", "Could", "Should", "Would"]

/-- The punctuation stripped from token edges by `w.strip("?,.!\"'")`. -/
def keywordEdgeChars : List Char :=
  ['?', ',', '.', '!', '"', Char.ofNat 39]

/-- Embeds the keyword extraction of the hybrid search: whitespace-split the
query, strip edge punctuation, keep capitalized tokens longer than three
characters that are not in the stoplist. -/
def extractKeywords (query : String) : List String :=
  let tokens := ((pySplit Char.isWhitespace query).filter (fun w => w ≠ "")).map
    (pyStripChars keywordEdgeChars)
  tokens.filter (fun w =>
    w ≠ "" && firstCharUpper w && decide (3 < w.length) && !(keywordIgnore.contains w))

/-- The combined lowercased claim-plus-explanation search text of a row. -/
def searchText (row : ArchiveRow) : String :=
  pyLower (row.claim ++ " " ++ row.explanation)

/-- Embeds the boolean mask plus `head(10)`: the first ten archive rows whose
combined text contains every keyword, case-insensitively. -/
def boostRows (metadata : List ArchiveRow) (keywords : List String) : List ArchiveRow :=
  (metadata.filter (fun row =>
    keywords.all (fun k => strContains (searchText row) (pyLower k)))).take 10

/-- One keyword-boost entry, carrying the synthetic similarity score 0.99. -/
def mkBoostEntry (row : ArchiveRow) : SearchResult :=
  { source := "PolitiFact (Keyword Match)", publisher := "PolitiFact",
    claim := row.claim, rating := row.verdict,
    explanation := truncExplanation row.explanation, url := row.url,
    similarity_score := some (99 / 100), review_date := "", language := "" }

/-- Embeds the final URL-deduplication loop: a result with an empty URL, or a
URL already seen, is skipped; otherwise it is kept and its URL recorded. -/
def dedupByUrl (seen : List String) : List SearchResult → List SearchResult
  | [] => []
  | r :: rest =>
    if r.url = "" ∨ seen.contains r.url then dedupByUrl seen rest
    else r :: dedupByUrl (r.url :: seen) rest

/-- Embeds `search_politifact_db` downstream of the two external
collaborators: `vecPairs` stands for the k nearest rows with their mapped
similarity scores (embedding call plus index search plus distance mapping),
`metadata` for the full archive table.  The boost loop inserts each entry at
position zero, which a left fold over cons reproduces. -/
def search_politifact_db (query : String) (vecPairs : List (ArchiveRow × ℚ))
    (metadata : List ArchiveRow) : SourceGroup :=
  let results := vecPairs.map (fun p => mkVecResult p.1 p.2)
  let keywords := extractKeywords query
  let withBoost :=
    if keywords.isEmpty then results
    else (boostRows metadata keywords).foldl (fun acc row => mkBoostEntry row :: acc) results
  { source_name := "PolitiFact Database", results := dedupByUrl [] withBoost }

/-! ## External Fact-Check Client (services/fact_sources.py) -/

/-- One `claimReview` entry of the API payload; absent JSON keys are `none`. -/
structure GReview where
  publisher_name : Option String
  textualRating : Option String
  url : Option String
  reviewDate : Option String
deriving DecidableEq, Repr

/-- One `claims[]` entry of the API payload. -/
structure GClaim where
  text : Option String
  languageCode : Option String
  claimReview : List GReview
deriving DecidableEq, Repr

/-- The observable outcome of one HTTP exchange: either a transport or
parsing error (a raised exception), or a status code with a parsed payload. -/
def ApiResponse := Except String (Nat × List GClaim)

/-- Embeds `_search_google_factcheck_raw`, returning the result list together
with the warnings surfaced through `st.warning`.  A missing API key returns
early; an exception or a status other than 200 degrades to an empty list with
one warning; otherwise the nested claim reviews are flattened and truncated
to `max_results`. -/
def search_google_factcheck_raw (api_key : String) (resp : ApiResponse)
    (max_results : Nat) : List SearchResult × List String :=
  if api_key = "" then ([], [])
  else
    match resp with
    | Except.error e => ([], ["Google Fact Check API error: " ++ e])
    | Except.ok (status, claims) =>
      if status ≠ 200 then
        ([], ["Google Fact Check API status " ++ toString status])
      else
        let out := claims.flatMap (fun c =>
          let claim_txt := c.text.getD ""
          let lang := match c.languageCode with
            | none => "en"
            | some l => if l = "" then "en" else l
          c.claimReview.map (fun rev =>
            { source := "Multi-Source",
              publisher := rev.publisher_name.getD "Unknown",
              claim := claim_txt,
              rating := rev.textualRating.getD "No rating",
              explanation := "",
              url := rev.url.getD "",
              similarity_score := none,
              review_date := rev.reviewDate.getD "",
              language := lang }))
        (out.take max_results, [])

/-- The separator class of `re.split` in `_normalize_terms` and
`_fallback_terms_from_query`. -/
def termSepChar (c : Char) : Bool :=
  c.isWhitespace || c == '/' || c == ',' || c == '-' || c == '(' || c == ')' ||
    c == '[' || c == ']' || c == ':' || c == ';'

/-- Embeds `_normalize_terms`: lowercase and split every term, keep tokens of
length three or more, deduplicating across the whole accumulated list. -/
def normalize_terms (terms : List String) : List String :=
  terms.foldl (fun out t =>
    if t = "" then out
    else (pySplit termSepChar (pyStrip (pyLower t))).foldl (fun out2 p =>
      let q := pyStrip p
      if 3 ≤ q.length ∧ ¬ out2.contains q then out2 ++ [q] else out2) out) []

/-- The stopword list of `_fallback_terms_from_query`. -/
def fallbackStop : List String :=
  ["the", "and", "for", "with", "that", "this", "from", "into", "onto",
   "are", "was", "were", "been", "their", "they", "them", "her", "his",
   "you", "your", "about", "over", "under", "via", "out",
   "not", "have", "has", "had", "but", "who", "what", "when", "where",
   "why", "how", "will", "would", "could", "should", "may", "might",
   "more", "less", "very", "also", "than", "then"]

/-- Embeds `_fallback_terms_from_query`: lowercase-split the raw query, keep
non-stopword tokens of length three or more, deduplicate in order, cap at 20. -/
def fallback_terms_from_query (query : String) : List String :=
  let parts := pySplit termSepChar (pyLower query)
  let terms := parts.filter (fun w => 3 ≤ w.length ∧ ¬ fallbackStop.contains w)
  (dedupInOrder terms).take 20

/-- Embeds `_build_dynamic_terms` given the extraction collaborator output:
extracted tokens first, then fallback tokens not already present, cap at 30. -/
def build_dynamic_terms (claims terms : List String) (query : String) : List String :=
  let extracted := normalize_terms (terms ++ claims)
  let fallback := fallback_terms_from_query query
  (extracted ++ fallback.filter (fun t => ¬ extracted.contains t)).take 30

/-- Embeds `_looks_relevant_dynamic`: with no dynamic terms nothing is
filtered; otherwise some term must occur in the claim text, publisher or URL
joined by single spaces, all lowercased. -/
def looks_relevant_dynamic (r : SearchResult) (dyn : List String) : Bool :=
  if dyn.isEmpty then true
  else
    let hay := pyLower r.claim ++ " " ++ pyLower r.publisher ++ " " ++ pyLower r.url
    dyn.any (fun t => strContains hay t)

/-- The API sub-queries issued by `enhanced_google_factcheck_search`, as
query-text and page-size pairs, in issue order: up to three extracted claims
at three results each, up to three extracted terms at two results each, then
the raw query at `max_results`. -/
def issuedApiCalls (claims terms : List String) (query : String)
    (max_results : Nat) : List (String × Nat) :=
  (claims.take 3).map (fun c => (c, 3)) ++ (terms.take 3).map (fun t => (t, 2)) ++
    [(query, max_results)]

/-- Embeds the dedup-and-filter loop of `enhanced_google_factcheck_search`:
empty or already-seen URLs are skipped, and a URL enters the seen set only
when its result also passes the dynamic relevance test. -/
def googleDedupFilter (dyn : List String) (seen : List String) :
    List SearchResult → List SearchResult
  | [] => []
  | r :: rest =>
    if r.url = "" ∨ seen.contains r.url then googleDedupFilter dyn seen rest
    else if looks_relevant_dynamic r dyn then
      r :: googleDedupFilter dyn (r.url :: seen) rest
    else googleDedupFilter dyn seen rest

/-- Embeds `enhanced_google_factcheck_search` downstream of its two
collaborators: `api q n` stands for `_search_google_factcheck_raw(q, key, n)`
and the pair `claims, terms` for `extract_key_terms_and_claims(query)` (the
code calls the extractor twice; the collaborator is modelled as returning the
same value both times).  Sub-queries run over the first three claims (three
results each) and first three terms (two results each), then the raw query;
the merged list is URL-deduplicated, relevance-filtered and truncated. -/
def enhanced_google_factcheck_search (api : String → Nat → List SearchResult)
    (claims terms : List String) (query : String) (api_key : String)
    (max_results : Nat) : List SearchResult :=
  if api_key = "" then []
  else
    let dyn_terms := build_dynamic_terms claims terms query
    let all_results :=
      (claims.take 3).flatMap (fun c => api c 3) ++
        (terms.take 3).flatMap (fun t => api t 2) ++ api query max_results
    (googleDedupFilter dyn_terms [] all_results).take max_results

/-! ## Consensus Analyzer (services/fact_sources.py) -/

/-- The publisher key used when recording a scorable rating: the Python
or-chain `res.get("publisher") or res.get("source") or "Unknown"`, with the
empty string standing for a missing or falsy value. -/
def pubNameOf (r : SearchResult) : String :=
  if r.publisher ≠ "" then r.publisher
  else if r.source ≠ "" then r.source
  else "Unknown"

/-- The scorable results of all groups in iteration order, as publisher-name
and standardized-score pairs (the body of the double loop of
`analyze_consensus` that appends to `ratings` and writes `source_ratings`). -/
def scorableResults (sources_data : List SourceGroup) : List (String × Nat) :=
  sources_data.flatMap (fun sd =>
    sd.results.filterMap (fun res =>
      (standardize_rating res.rating).map (fun s => (pubNameOf res, s))))

/-- Python dict assignment `d[k] = v` on an insertion-ordered association
list: an existing key keeps its position and gets the new value, a new key is
appended. -/
def dictInsert (d : List (String × Nat)) (k : String) (v : Nat) : List (String × Nat) :=
  if d.any (fun kv => kv.1 == k) then
    d.map (fun kv => if kv.1 == k then (k, v) else kv)
  else d ++ [(k, v)]

/-- The `source_ratings` dict after the collection loop. -/
def sourceRatingsOf (sources_data : List SourceGroup) : List (String × Nat) :=
  (scorableResults sources_data).foldl (fun d p => dictInsert d p.1 p.2) []

/-- The `ratings` list after the collection loop, as exact rationals. -/
def ratingsOf (sources_data : List SourceGroup) : List ℚ :=
  (scorableResults sources_data).map (fun p => (p.2 : ℚ))

/-- Arithmetic mean, the value of `np.mean` on a nonempty list. -/
def meanQ (xs : List ℚ) : ℚ :=
  xs.sum / xs.length

/-- Population variance, the square of `np.std` on a nonempty list. -/
def popVarQ (xs : List ℚ) : ℚ :=
  ((xs.map (fun x => (x - meanQ xs) ^ 2)).sum) / xs.length

/-- The `std` local of `analyze_consensus`: the population standard deviation
for two or more ratings, and the explicit 0.0 for a single rating. -/
noncomputable def stdOf (xs : List ℚ) : ℝ :=
  if 1 < xs.length then Real.sqrt (popVarQ xs) else 0

/-- The `consensus_level` local, `max(0.0, 1.0 - std / 2.5)`. -/
noncomputable def consensusLevelOf (xs : List ℚ) : ℝ :=
  max 0 (1 - stdOf xs / 2.5)

/-- The agreement classification chain of `analyze_consensus`. -/
noncomputable def agreementOf (xs : List ℚ) : String :=
  if consensusLevelOf xs > 0.8 then "Strong consensus"
  else if consensusLevelOf xs > 0.6 then "Moderate agreement"
  else if consensusLevelOf xs > 0.4 then "Some disagreement"
  else "Significant disagreement"

/-- The outlier loop: every dict entry whose score deviates from the average
by more than `outlier_delta`, rendered as in the Python f-string. -/
def outliersOf (source_ratings : List (String × Nat)) (avg : ℚ)
    (outlier_delta : ℚ) : List String :=
  (source_ratings.filter (fun p => |(p.2 : ℚ) - avg| > outlier_delta)).map
    (fun p => p.1 ++ " (" ++ toString p.2 ++ ")")

/-- The dict returned by `analyze_consensus`.  The two early returns carry no
`source_ratings` key; that absent key is modelled by the empty list. -/
structure ConsensusReport where
  consensus_level : ℝ
  average_rating : Option ℝ
  agreement : String
  outliers : List String
  source_count : Nat
  source_ratings : List (String × Nat)

/-- Embeds `analyze_consensus`: empty input and no-scorable-ratings input hit
the two early returns; otherwise the report is assembled from the collected
per-result ratings and the per-publisher dict.  The `source_count` of the
main branch wraps the dict keys in a set before counting, as the Python
`len(set(source_ratings.keys()))` does. -/
noncomputable def analyze_consensus (sources_data : List SourceGroup)
    (outlier_delta : ℚ) : ConsensusReport :=
  if sources_data.isEmpty then
    { consensus_level := 0, average_rating := none, agreement := "No data",
      outliers := [], source_count := 0, source_ratings := [] }
  else
    let ratings := ratingsOf sources_data
    if ratings.isEmpty then
      { consensus_level := 0, average_rating := none,
        agreement := "No standardizable ratings", outliers := [],
        source_count := sources_data.length, source_ratings := [] }
    else
      let source_ratings := sourceRatingsOf sources_data
      { consensus_level := consensusLevelOf ratings,
        average_rating := some ((meanQ ratings : ℚ) : ℝ),
        agreement := agreementOf ratings,
        outliers := outliersOf source_ratings (meanQ ratings) outlier_delta,
        source_count := ((source_ratings.map Prod.fst).dedup).length,
        source_ratings := source_ratings }

/-! ## Source Fusion (services/fact_sources.py) -/

/-- Embeds `_split_google_by_publisher`: one pass appending each result to
the PolitiFact partition when its stripped lowercased publisher equals
"politifact", and to the other partition otherwise. -/
def split_google_by_publisher (results : List SearchResult) :
    List SearchResult × List SearchResult :=
  (results.filter (fun r => pyLower (pyStrip r.publisher) = "politifact"),
   results.filter (fun r => ¬ pyLower (pyStrip r.publisher) = "politifact"))

/-- Embeds the source-list assembly of `get_multi_source_analysis` (the part
after both retrieval futures are joined): the archive group is always
appended first; when the external list is nonempty it is split by publisher
and each nonempty partition is appended as its own named group. -/
def fuseSources (pf_data : SourceGroup) (g_results : List SearchResult) :
    List SourceGroup :=
  if g_results.isEmpty then [pf_data]
  else
    let split := split_google_by_publisher g_results
    [pf_data] ++
      (if split.1.isEmpty then []
       else [{ source_name := "Recent PolitiFact (via Google)", results := split.1 }]) ++
      (if split.2.isEmpty then []
       else [{ source_name := "External Sources (via Google)", results := split.2 }])

/-- Embeds the tail of `get_multi_source_analysis`: fuse, then run the
consensus analyzer with its default outlier delta of 1.5. -/
noncomputable def get_multi_source_analysis (pf_data : SourceGroup)
    (g_results : List SearchResult) : List SourceGroup × ConsensusReport :=
  let sources := fuseSources pf_data g_results
  (sources, analyze_consensus sources 1.5)

/-! ## Speaker statistics (utils/source_tracking.py) -/

/-- The dict returned by `get_source_statistics`, without the two optional
date fields (which need a date column the claims do not touch).  The
`rating_breakdown` counts are kept in first-occurrence order; the Python
`value_counts()` sorts them by descending count for display only. -/
structure SourceStats where
  source : String
  total_checks : Nat
  rating_breakdown : List (String × Nat)
  false_percentage : ℚ
  true_percentage : ℚ
  mixed_percentage : ℚ
  indicator : String
  indicator_color : String
deriving DecidableEq, Repr

/-- Embeds `get_source_statistics`: filter the archive to the given speaker,
count verdicts, and derive the three bucket percentages from the fixed bucket
membership lists `false_ratings`, `true_ratings` and `mixed_ratings`. -/
def get_source_statistics (source : String) (metadata : List ArchiveRow) :
    Option SourceStats :=
  let source_claims := metadata.filter (fun r => r.source == source)
  if source_claims.isEmpty then none
  else
    let total := source_claims.length
    let countOf := fun (v : String) => (source_claims.filter (fun r => r.verdict == v)).length
    let false_count := countOf "false" + countOf "pants-fire" + countOf "barely-true"
    let false_pct : ℚ := (false_count : ℚ) / (total : ℚ) * 100
    let true_count := countOf "true" + countOf "mostly-true"
    let true_pct : ℚ := (true_count : ℚ) / (total : ℚ) * 100
    let mixed_count := countOf "half-true"
    let mixed_pct : ℚ := (mixed_count : ℚ) / (total : ℚ) * 100
    let indicator := if false_pct > 50 then "High False Rate"
      else if true_pct > 50 then "High True Rate" else "Mixed Record"
    let color := if false_pct > 50 then "red"
      else if true_pct > 50 then "green" else "orange"
    some { source := source, total_checks := total,
           rating_breakdown := (dedupInOrder (source_claims.map (fun r => r.verdict))).map
             (fun v => (v, countOf v)),
           false_percentage := false_pct, true_percentage := true_pct,
           mixed_percentage := mixed_pct, indicator := indicator,
           indicator_color := color }

/-- The display-name table of `format_rating_name`, in source order.  Both
the retired 2011 label and its successor map to the same display name. -/
def RATING_NAME_MAP : List (String × String) :=
  [("true", "True"), ("mostly-true", "Mostly True"), ("half-true", "Half True"),
   ("barely-true", "Mostly False"), ("mostly-false", "Mostly False"),
   ("false", "False"), ("pants-fire", "Pants on Fire"), ("full-flop", "Full Flop"),
   ("half-flip", "Half Flip"), ("no-flip", "No Flip")]

/-- Python `str.title()`: uppercase the first character of every maximal
alphabetic run, lowercase the rest. -/
def pyTitle (s : String) : String :=
  String.mk ((s.data.foldl (fun st c =>
    let prevAlpha := st.1
    let out := st.2
    if c.isAlpha then
      (true, (if prevAlpha then c.toLower else c.toUpper) :: out)
    else (false, c :: out)) (false, [])).2.reverse)

/-- Embeds `format_rating_name`: look the lowercased code up in the display
table, falling back to `rating.title()`. -/
def format_rating_name (rating : String) : String :=
  match RATING_NAME_MAP.find? (fun kv => kv.1 == pyLower rating) with
  | some kv => kv.2
  | none => pyTitle rating

/-! ## Helper lemmas -/

/-- A predicate false on a whole prefix and true at the next element makes
`find?` return that element. -/
theorem find?_first_hit {α : Type} (p : α → Bool) (pre post : List α) (x : α)
    (hpre : ∀ y ∈ pre, p y = false) (hx : p x = true) :
    (pre ++ x :: post).find? p = some x := by
  induction pre with
  | nil => simp [List.find?, hx]
  | cons a t ih =>
    have ha : p a = false := hpre a (List.mem_cons_self a t)
    simp only [List.cons_append, List.find?, ha]
    exact ih (fun y hy => hpre y (List.mem_cons_of_mem a hy))

/-- Every value of the merged rating table lies in the 0..5 scale. -/
theorem rating_table_values_le : ∀ kv ∈ RATING_TABLE, kv.2 ≤ 5 := by decide

/-- The boost loop of `search_politifact_db` inserts each entry at position
zero, so it prepends the reversed image of the boosted rows. -/
theorem foldl_cons_eq_reverse_append {α β : Type} (f : α → β) (rows : List α)
    (init : List β) :
    rows.foldl (fun acc row => f row :: acc) init = (rows.map f).reverse ++ init := by
  induction rows generalizing init with
  | nil => simp
  | cons r t ih => simp [ih]

/-- Every result surviving the archive URL-dedup pass has a nonempty URL. -/
theorem dedupByUrl_url_ne (rs : List SearchResult) :
    ∀ seen, ∀ r ∈ dedupByUrl seen rs, r.url ≠ "" := by
  induction rs with
  | nil => intro seen r hr; simp [dedupByUrl] at hr
  | cons a t ih =>
    intro seen r hr
    by_cases h : a.url = "" ∨ seen.contains a.url
    · rw [dedupByUrl, if_pos h] at hr
      exact ih seen r hr
    · rw [dedupByUrl, if_neg h] at hr
      rcases List.mem_cons.mp hr with h1 | h1
      · subst h1; exact fun he => h (Or.inl he)
      · exact ih _ r h1

/-! ## Claim C2 -/

/-- C2: for every raw rating string whose normalized form contains a
recognized keyword, `standardize_rating` returns the integer of the first
table entry (primary table before generic table) whose keyword is contained,
and that integer lies in 0..5; for every raw string containing no recognized
keyword it returns `none`; in particular "Mostly False" maps to 2 and
"zzz-unrated-zzz" to `none`. -/
theorem C2_standardize_rating_spec :
    (∀ (s : String) (pre post : List (String × Nat)) (kv : String × Nat),
      RATING_TABLE = pre ++ kv :: post →
      (∀ kv2 ∈ pre, strContains (normalize_rating_text s) kv2.1 = false) →
      strContains (normalize_rating_text s) kv.1 = true →
      standardize_rating s = some kv.2 ∧ kv.2 ≤ 5) ∧
    (∀ s : String,
      (∀ kv ∈ RATING_TABLE, strContains (normalize_rating_text s) kv.1 = false) →
      standardize_rating s = none) ∧
    standardize_rating "Mostly False" = some 2 ∧
    standardize_rating "zzz-unrated-zzz" = none := by
  refine ⟨?_, ?_, by decide, by decide⟩
  · intro s pre post kv hsplit hpre hkv
    have hfind : RATING_TABLE.find?
        (fun kv2 => strContains (normalize_rating_text s) kv2.1) = some kv := by
      rw [hsplit]
      exact find?_first_hit _ pre post kv hpre hkv
    have hmem : kv ∈ RATING_TABLE := by
      rw [hsplit]; exact List.mem_append_right pre (List.mem_cons_self kv post)
    refine ⟨?_, rating_table_values_le kv hmem⟩
    rw [standardize_rating, hfind, Option.map_some']
  · intro s hall
    have hfind : RATING_TABLE.find?
        (fun kv2 => strContains (normalize_rating_text s) kv2.1) = none := by
      rw [List.find?_eq_none]
      intro kv hkv
      simp [hall kv hkv]
    rw [standardize_rating, hfind, Option.map_none']

/-- Witness for C2 at the concrete input "Mostly False": the fifth table
entry is the first containment hit, so the result is 2. -/
theorem C2_witness : standardize_rating "Mostly False" = some 2 ∧ 2 ≤ 5 :=
  C2_standardize_rating_spec.1 "Mostly False"
    [("true", 5), ("mostly true", 4), ("half true", 3), ("half-true", 3)]
    ([("false", 1), ("pants on fire", 0)] ++ GENERIC_MAP)
    ("mostly false", 2) (by decide) (by decide) (by decide)

/-! ## Claim C9 -/

/-- C9: fusing any archive group with an empty external-results list returns
exactly that group, unchanged, as the only emitted group. -/
theorem C9_fusion_empty_identity : ∀ pf : SourceGroup, fuseSources pf [] = [pf] :=
  fun _ => rfl

/-! ## Claim C5 -/

/-- Counterexample to C5 as stated: the archive group is appended to the
output unconditionally, so a fusion whose archive group carries zero results
(here produced by the archive search itself on an empty index and archive)
emits a SourceGroup with zero results. -/
theorem C5_counterexample :
    ∃ grp, grp ∈ fuseSources (search_politifact_db "hello there" [] []) [] ∧
      grp.results = [] := by
  refine ⟨{ source_name := "PolitiFact Database", results := [] }, ?_, rfl⟩
  have h : fuseSources (search_politifact_db "hello there" [] []) [] =
      [{ source_name := "PolitiFact Database", results := [] }] := by decide
  rw [h]
  exact List.mem_singleton.mpr rfl

/-- C5 amended: the emitted groups are in the fixed order archive first,
recent-primary-publisher second, general-external third; the two external
partitions are omitted when empty, while the archive group is always emitted,
even when it has zero results. -/
theorem C5_fusion_order_amended (pf : SourceGroup) (g : List SearchResult) :
    fuseSources pf g =
      [pf] ++
        (if (split_google_by_publisher g).1.isEmpty then []
         else [{ source_name := "Recent PolitiFact (via Google)",
                 results := (split_google_by_publisher g).1 }]) ++
        (if (split_google_by_publisher g).2.isEmpty then []
         else [{ source_name := "External Sources (via Google)",
                 results := (split_google_by_publisher g).2 }]) ∧
    ∀ grp ∈ (fuseSources pf g).tail, grp.results ≠ [] := by
  constructor
  · cases g with
    | nil => simp [fuseSources, split_google_by_publisher]
    | cons a t => rfl
  · intro grp hgrp
    cases g with
    | nil => simp [fuseSources] at hgrp
    | cons a t =>
      have h1 : (fuseSources pf (a :: t)).tail =
          (if (split_google_by_publisher (a :: t)).1.isEmpty then []
           else [{ source_name := "Recent PolitiFact (via Google)",
                   results := (split_google_by_publisher (a :: t)).1 }]) ++
          (if (split_google_by_publisher (a :: t)).2.isEmpty then []
           else [{ source_name := "External Sources (via Google)",
                   results := (split_google_by_publisher (a :: t)).2 }]) := rfl
      rw [h1] at hgrp
      rcases List.mem_append.mp hgrp with h2 | h2
      · by_cases hc : (split_google_by_publisher (a :: t)).1.isEmpty
        · rw [if_pos hc] at h2
          simp at h2
        · rw [if_neg hc] at h2
          rw [List.mem_singleton] at h2
          subst h2
          intro habs
          have habs2 : (split_google_by_publisher (a :: t)).1 = [] := habs
          exact hc (by rw [habs2]; rfl)
      · by_cases hc : (split_google_by_publisher (a :: t)).2.isEmpty
        · rw [if_pos hc] at h2
          simp at h2
        · rw [if_neg hc] at h2
          rw [List.mem_singleton] at h2
          subst h2
          intro habs
          have habs2 : (split_google_by_publisher (a :: t)).2 = [] := habs
          exact hc (by rw [habs2]; rfl)

/-- Witness for C5 at a concrete fusion: the single external result has a
non-PolitiFact publisher, so the second emitted group is the general-external
partition and it is nonempty. -/
theorem C5_witness :
    ({ source_name := "External Sources (via Google)",
       results := [{ source := "Multi-Source", publisher := "Snopes",
                     claim := "c", rating := "False", explanation := "",
                     url := "u", similarity_score := none, review_date := "",
                     language := "en" }] } : SourceGroup).results ≠ [] :=
  (C5_fusion_order_amended
      { source_name := "PolitiFact Database", results := [] }
      [{ source := "Multi-Source", publisher := "Snopes", claim := "c",
         rating := "False", explanation := "", url := "u",
         similarity_score := none, review_date := "", language := "en" }]).2
    { source_name := "External Sources (via Google)",
      results := [{ source := "Multi-Source", publisher := "Snopes",
                    claim := "c", rating := "False", explanation := "",
                    url := "u", similarity_score := none, review_date := "",
                    language := "en" }] }
    (by decide)

/-! ## Claim C4 -/

/-- C4: the claim is right and the code is wrong.  For a speaker with one row
under the retired pre-2011 label (barely-true) and one row under its current
successor label (mostly-false), the display formatter maps both labels to the
same name "Mostly False", yet the false-percentage bucket of
`get_source_statistics` counts only the retired label: the successor row is
silently dropped from every percentage bucket, giving 50 percent false
instead of the combined 100 percent the claim requires (true and mixed stay
at 0, so the three buckets sum to 50 percent of the rows). -/
theorem C4_legacy_label_drop :
    get_source_statistics "S"
        [{ source := "S", claim := "c1", verdict := "barely-true",
           explanation := "", url := "u1" },
         { source := "S", claim := "c2", verdict := "mostly-false",
           explanation := "", url := "u2" }] =
      some { source := "S", total_checks := 2,
             rating_breakdown := [("barely-true", 1), ("mostly-false", 1)],
             false_percentage := 50, true_percentage := 0,
             mixed_percentage := 0, indicator := "Mixed Record",
             indicator_color := "orange" } ∧
    format_rating_name "barely-true" = "Mostly False" ∧
    format_rating_name "mostly-false" = "Mostly False" := by
  refine ⟨?_, by decide, by decide⟩
  simp only [get_source_statistics, dedupInOrder, List.filter_cons, List.filter_nil]
  simp
  norm_num

/-! ## Claim C10 -/

/-- Every result surviving the external-client dedup-and-filter loop has a
nonempty URL. -/
theorem googleDedupFilter_url_ne (dyn : List String) (rs : List SearchResult) :
    ∀ seen, ∀ r ∈ googleDedupFilter dyn seen rs, r.url ≠ "" := by
  induction rs with
  | nil => intro seen r hr; simp [googleDedupFilter] at hr
  | cons a t ih =>
    intro seen r hr
    by_cases h : a.url = "" ∨ seen.contains a.url
    · rw [googleDedupFilter, if_pos h] at hr
      exact ih seen r hr
    · rw [googleDedupFilter, if_neg h] at hr
      by_cases hrel : looks_relevant_dynamic a dyn
      · rw [if_pos hrel] at hr
        rcases List.mem_cons.mp hr with h1 | h1
        · subst h1; exact fun he => h (Or.inl he)
        · exact ih _ r h1
      · rw [if_neg hrel] at hr
        exact ih seen r hr

/-- C10: every result in the group emitted by the archive search, and every
result returned by the external client, carries a nonempty URL, because both
URL-deduplication passes silently drop results whose url field is missing or
empty instead of keeping them as first occurrences. -/
theorem C10_urls_nonempty :
    (∀ (query : String) (vecPairs : List (ArchiveRow × ℚ)) (metadata : List ArchiveRow),
      ∀ r ∈ (search_politifact_db query vecPairs metadata).results, r.url ≠ "") ∧
    (∀ (api : String → Nat → List SearchResult) (claims terms : List String)
      (query api_key : String) (n : Nat),
      ∀ r ∈ enhanced_google_factcheck_search api claims terms query api_key n,
        r.url ≠ "") := by
  constructor
  · intro query vecPairs metadata r hr
    exact dedupByUrl_url_ne _ [] r hr
  · intro api claims terms query api_key n r hr
    rw [enhanced_google_factcheck_search] at hr
    by_cases hk : api_key = ""
    · rw [if_pos hk] at hr
      simp at hr
    · rw [if_neg hk] at hr
      exact googleDedupFilter_url_ne _ _ [] r (List.mem_of_mem_take hr)

/-- Witness for C10 at a concrete archive search over one row with URL "u":
the emitted result keeps its nonempty URL. -/
theorem C10_witness :
    ({ source := "PolitiFact", publisher := "PolitiFact", claim := "c",
       rating := "v", explanation := "e", url := "u",
       similarity_score := some 1, review_date := "",
       language := "" } : SearchResult).url ≠ "" :=
  C10_urls_nonempty.1 "q"
    [({ source := "s", claim := "c", verdict := "v", explanation := "e",
        url := "u" }, 1)] []
    { source := "PolitiFact", publisher := "PolitiFact", claim := "c",
      rating := "v", explanation := "e", url := "u",
      similarity_score := some 1, review_date := "", language := "" }
    (by decide)

/-! ## Claim C3 -/

/-- C3: with at least one extracted keyword, the lexical boost selects only
archive rows whose combined claim-plus-explanation text contains every
extracted keyword case-insensitively, keeps at most ten of them, tags each
with similarity score 0.99, and prepends them (newest insertion first) to the
dense-retrieval results before the final URL-dedup pass; with no keywords the
archive search is the dense retrieval followed by dedup alone. -/
theorem C3_lexical_boost (query : String) (vecPairs : List (ArchiveRow × ℚ))
    (metadata : List ArchiveRow) :
    (extractKeywords query ≠ [] →
      (boostRows metadata (extractKeywords query)).length ≤ 10 ∧
      (∀ row ∈ boostRows metadata (extractKeywords query),
        ∀ k ∈ extractKeywords query,
          strContains (searchText row) (pyLower k) = true) ∧
      (∀ row ∈ boostRows metadata (extractKeywords query),
        (mkBoostEntry row).similarity_score = some (99 / 100)) ∧
      search_politifact_db query vecPairs metadata =
        { source_name := "PolitiFact Database",
          results := dedupByUrl []
            (((boostRows metadata (extractKeywords query)).map mkBoostEntry).reverse ++
              vecPairs.map (fun p => mkVecResult p.1 p.2)) }) ∧
    (extractKeywords query = [] →
      search_politifact_db query vecPairs metadata =
        { source_name := "PolitiFact Database",
          results := dedupByUrl [] (vecPairs.map (fun p => mkVecResult p.1 p.2)) }) := by
  constructor
  · intro hkw
    have hne : (extractKeywords query).isEmpty = false := by
      simp [List.isEmpty_eq_false, hkw]
    refine ⟨?_, ?_, ?_, ?_⟩
    · exact List.length_take_le 10 _
    · intro row hrow k hk
      have hmem := List.mem_of_mem_take hrow
      have hall := (List.mem_filter.mp hmem).2
      exact List.all_eq_true.mp hall k hk
    · intro row _
      rfl
    · simp only [search_politifact_db, hne, Bool.false_eq_true, if_false]
      rw [foldl_cons_eq_reverse_append]
  · intro hkw
    simp [search_politifact_db, hkw]

/-- Witness for C3 at the concrete query "Acme Corp tested": both keywords
are extracted, so the boost branch applies and selects at most ten rows. -/
theorem C3_witness :
    (boostRows
        [{ source := "s", claim := "Acme Corp did a thing", verdict := "true",
           explanation := "expl", url := "u1" }]
        (extractKeywords "Acme Corp tested")).length ≤ 10 :=
  ((C3_lexical_boost "Acme Corp tested" []
      [{ source := "s", claim := "Acme Corp did a thing", verdict := "true",
         explanation := "expl", url := "u1" }]).1 (by decide)).1

/-! ## Claim C6 -/

/-- Counterexample to C6 as stated: the refactored client has no query-length
branch at all.  For the short query "abc" (far below 200 characters) with one
extracted claim, two API calls are issued rather than exactly one direct call,
so the short-query half of the claim is false. -/
theorem C6_counterexample :
    "abc".length ≤ 200 ∧
    issuedApiCalls ["some extracted claim"] [] "abc" 5 ≠ [("abc", 5)] := by
  refine ⟨by decide, by decide⟩

/-- Flattening the image of a map composes the two functions. -/
theorem flatMap_map_eq {α β γ : Type} (f : α → β) (g : β → List γ) (l : List α) :
    (l.map f).flatMap g = l.flatMap (fun a => g (f a)) := by
  induction l with
  | nil => rfl
  | cons a t ih => simp [ih]

/-- The sub-query fan-out of the external client equals the issued-call list:
a helper connecting the literal concatenation in the code to
`issuedApiCalls`. -/
theorem flatMap_issuedApiCalls (api : String → Nat → List SearchResult)
    (claims terms : List String) (query : String) (n : Nat) :
    (issuedApiCalls claims terms query n).flatMap (fun c => api c.1 c.2) =
      (claims.take 3).flatMap (fun c => api c 3) ++
        (terms.take 3).flatMap (fun t => api t 2) ++ api query n := by
  rw [issuedApiCalls, List.flatMap_append, List.flatMap_append,
    flatMap_map_eq, flatMap_map_eq]
  simp

/-- C6 amended: for every query, regardless of its length, the client derives
claims and search terms once and issues one API sub-query per extracted claim
(top 3, 3 results each), one per extracted term (top 3, 2 results each), and
additionally one direct call with the raw query at `max_results`; the merged
results of exactly those calls are then URL-deduplicated, relevance-filtered
and truncated. -/
theorem C6_subqueries_amended (api : String → Nat → List SearchResult)
    (claims terms : List String) (query api_key : String) (n : Nat)
    (hk : api_key ≠ "") :
    enhanced_google_factcheck_search api claims terms query api_key n =
      (googleDedupFilter (build_dynamic_terms claims terms query) []
        ((issuedApiCalls claims terms query n).flatMap (fun c => api c.1 c.2))).take n ∧
    (issuedApiCalls claims terms query n).length =
      min 3 claims.length + min 3 terms.length + 1 ∧
    (∀ c ∈ claims.take 3, (c, 3) ∈ issuedApiCalls claims terms query n) ∧
    (∀ t ∈ terms.take 3, (t, 2) ∈ issuedApiCalls claims terms query n) ∧
    (query, n) ∈ issuedApiCalls claims terms query n := by
  refine ⟨?_, ?_, ?_, ?_, ?_⟩
  · rw [flatMap_issuedApiCalls]
    simp only [enhanced_google_factcheck_search, if_neg hk]
  · simp [issuedApiCalls, Nat.add_assoc]
  · intro c hc
    exact List.mem_append_left _ (List.mem_append_left _ (List.mem_map_of_mem _ hc))
  · intro t ht
    exact List.mem_append_left _ (List.mem_append_right _ (List.mem_map_of_mem _ ht))
  · exact List.mem_append_right _ (List.mem_singleton.mpr rfl)

/-- Witness for C6 at a concrete invocation with one extracted claim: the raw
query call is among the issued calls. -/
theorem C6_witness : ("q", 5) ∈ issuedApiCalls ["c"] [] "q" 5 :=
  (C6_subqueries_amended (fun _ _ => []) ["c"] [] "q" "key" 5 (by decide)).2.2.2.2

/-! ## Claim C7 -/

/-- C7: an external API exchange that raises a transport or parsing error, or
returns a status outside the 2xx range, yields an empty result list together
with a surfaced warning (the embedded function is total, so no exception
reaches the caller), and fusing the archive group with that empty list leaves
the archive group as the only emitted group. -/
theorem C7_api_failure_degrades (api_key : String) (resp : ApiResponse) (n : Nat)
    (hkey : api_key ≠ "")
    (h : (∃ e, resp = Except.error e) ∨
         (∃ s claims, resp = Except.ok (s, claims) ∧ ¬ (200 ≤ s ∧ s < 300))) :
    (search_google_factcheck_raw api_key resp n).1 = [] ∧
    (search_google_factcheck_raw api_key resp n).2 ≠ [] ∧
    ∀ pf : SourceGroup,
      fuseSources pf (search_google_factcheck_raw api_key resp n).1 = [pf] := by
  have hmain : (search_google_factcheck_raw api_key resp n).1 = [] ∧
      (search_google_factcheck_raw api_key resp n).2 ≠ [] := by
    rcases h with ⟨e, he⟩ | ⟨s, claims, hok, hs⟩
    · subst he
      have hred : search_google_factcheck_raw api_key (Except.error e) n =
          ([], ["Google Fact Check API error: " ++ e]) := by
        rw [search_google_factcheck_raw, if_neg hkey]
      rw [hred]
      exact ⟨rfl, by simp⟩
    · subst hok
      have hs200 : s ≠ 200 := by
        intro h200
        exact hs (by simp [h200])
      have hred : search_google_factcheck_raw api_key (Except.ok (s, claims)) n =
          ([], ["Google Fact Check API status " ++ toString s]) := by
        rw [search_google_factcheck_raw, if_neg hkey]
        exact if_pos hs200
      rw [hred]
      exact ⟨rfl, by simp⟩
  refine ⟨hmain.1, hmain.2, ?_⟩
  intro pf
  rw [hmain.1]
  rfl

/-- Witness for C7 at a concrete failed exchange: status 500 degrades to an
empty list with a warning. -/
theorem C7_witness :
    (search_google_factcheck_raw "key" (Except.ok (500, [])) 5).1 = [] :=
  (C7_api_failure_degrades "key" (Except.ok (500, [])) 5 (by decide)
    (Or.inr ⟨500, [], rfl, by decide⟩)).1

/-! ## Claim C8 -/

/-- C8: the empty source-group list returns the No-data report with zero
source count, and a nonempty list in which no result has a standardizable
rating returns the No-standardizable-ratings report whose source count is the
number of groups; both are plain returns of a total function, so neither
raises. -/
theorem C8_no_data_cases :
    (∀ δ : ℚ, analyze_consensus [] δ =
      { consensus_level := 0, average_rating := none, agreement := "No data",
        outliers := [], source_count := 0, source_ratings := [] }) ∧
    (∀ (sds : List SourceGroup) (δ : ℚ), sds ≠ [] →
      (∀ g ∈ sds, ∀ r ∈ g.results, standardize_rating r.rating = none) →
      analyze_consensus sds δ =
        { consensus_level := 0, average_rating := none,
          agreement := "No standardizable ratings", outliers := [],
          source_count := sds.length, source_ratings := [] }) := by
  constructor
  · intro δ
    rfl
  · intro sds δ hne hnone
    have hsc : scorableResults sds = [] := by
      rw [scorableResults, List.flatMap_eq_nil_iff]
      intro g hg
      rw [List.filterMap_eq_nil_iff]
      intro r hr
      rw [hnone g hg r hr]
      rfl
    have hr : ratingsOf sds = [] := by
      rw [ratingsOf, hsc]
      rfl
    have he : sds.isEmpty = false := by
      simp [List.isEmpty_eq_false, hne]
    simp [analyze_consensus, he, hr]

/-- Witness for C8 at a one-group input whose only rating is gibberish. -/
theorem C8_witness :
    analyze_consensus
      [{ source_name := "PolitiFact Database",
         results := [{ source := "PolitiFact", publisher := "PolitiFact",
                       claim := "c", rating := "zzz-unrated-zzz",
                       explanation := "", url := "u", similarity_score := none,
                       review_date := "", language := "" }] }] (3 / 2) =
      { consensus_level := 0, average_rating := none,
        agreement := "No standardizable ratings", outliers := [],
        source_count := 1, source_ratings := [] } :=
  C8_no_data_cases.2
    [{ source_name := "PolitiFact Database",
       results := [{ source := "PolitiFact", publisher := "PolitiFact",
                     claim := "c", rating := "zzz-unrated-zzz",
                     explanation := "", url := "u", similarity_score := none,
                     review_date := "", language := "" }] }] (3 / 2)
    (by decide) (by decide)

/-! ## Claim C1: analysis helpers -/

/-- The effective variance entering the standard deviation of
`analyze_consensus`: the population variance for two or more ratings, zero
for a single rating. -/
def effVarQ (xs : List ℚ) : ℚ :=
  if 1 < xs.length then popVarQ xs else 0

/-- The `std` local is the square root of the effective variance. -/
theorem stdOf_eq_sqrt (xs : List ℚ) :
    stdOf xs = Real.sqrt ((effVarQ xs : ℚ) : ℝ) := by
  rw [stdOf, effVarQ]
  split_ifs with h
  · rfl
  · simp [Real.sqrt_zero]

/-- The consensus level in closed form over the effective variance. -/
theorem consensusLevelOf_eq (xs : List ℚ) :
    consensusLevelOf xs = max 0 (1 - Real.sqrt ((effVarQ xs : ℚ) : ℝ) / 2.5) := by
  rw [consensusLevelOf, stdOf_eq_sqrt]

/-- Comparing the consensus level against a positive threshold below one is
the same as comparing the effective variance against the squared residual
scaled back by 2.5. -/
theorem consensusLevel_gt_iff (xs : List ℚ) (c q : ℚ) (hc0 : (0 : ℝ) < (c : ℚ))
    (hc1 : ((c : ℚ) : ℝ) < 1) (hq : ((q : ℚ) : ℝ) = (2.5 * (1 - ((c : ℚ) : ℝ))) ^ 2) :
    (((c : ℚ) : ℝ) < consensusLevelOf xs ↔ effVarQ xs < q) := by
  rw [consensusLevelOf_eq, lt_max_iff]
  have h0 : ¬ (((c : ℚ) : ℝ) < 0) := not_lt.mpr hc0.le
  simp only [h0, false_or]
  rw [lt_sub_comm, div_lt_iff₀ (by norm_num : (0 : ℝ) < 2.5)]
  rw [Real.sqrt_lt' (by nlinarith : (0 : ℝ) < (1 - ((c : ℚ) : ℝ)) * 2.5)]
  rw [show ((1 - ((c : ℚ) : ℝ)) * 2.5) ^ 2 = ((q : ℚ) : ℝ) from by rw [hq]; ring]
  exact Rat.cast_lt

/-- Strong-consensus threshold as a variance band. -/
theorem strong_band_iff (xs : List ℚ) :
    (consensusLevelOf xs > 0.8) ↔ effVarQ xs < 1 / 4 := by
  rw [gt_iff_lt, show (0.8 : ℝ) = (((4 / 5 : ℚ) : ℚ) : ℝ) by norm_num]
  exact consensusLevel_gt_iff xs (4 / 5) (1 / 4) (by norm_num) (by norm_num)
    (by push_cast; norm_num)

/-- Moderate-agreement threshold as a variance band. -/
theorem moderate_band_iff (xs : List ℚ) :
    (consensusLevelOf xs > 0.6) ↔ effVarQ xs < 1 := by
  rw [gt_iff_lt, show (0.6 : ℝ) = (((3 / 5 : ℚ) : ℚ) : ℝ) by norm_num]
  exact consensusLevel_gt_iff xs (3 / 5) 1 (by norm_num) (by norm_num)
    (by push_cast; norm_num)

/-- Some-disagreement threshold as a variance band. -/
theorem some_band_iff (xs : List ℚ) :
    (consensusLevelOf xs > 0.4) ↔ effVarQ xs < 9 / 4 := by
  rw [gt_iff_lt, show (0.4 : ℝ) = (((2 / 5 : ℚ) : ℚ) : ℝ) by norm_num]
  exact consensusLevel_gt_iff xs (2 / 5) (9 / 4) (by norm_num) (by norm_num)
    (by push_cast; norm_num)

/-- The agreement classification written over variance bands, the form the
amended C1 is proved against. -/
def classifyVar (v : ℚ) : String :=
  if v < 1 / 4 then "Strong consensus"
  else if v < 1 then "Moderate agreement"
  else if v < 9 / 4 then "Some disagreement"
  else "Significant disagreement"

/-- The classification chain of the code equals the variance-band
classification. -/
theorem agreementOf_eq_classifyVar (xs : List ℚ) :
    agreementOf xs = classifyVar (effVarQ xs) := by
  rw [agreementOf, classifyVar]
  exact if_congr (strong_band_iff xs) rfl
    (if_congr (moderate_band_iff xs) rfl
      (if_congr (some_band_iff xs) rfl rfl))

/-! ## Claim C1: dictionary helpers -/

/-- Reading a key from the insertion-ordered dict model. -/
def lookupDict (d : List (String × Nat)) (k : String) : Option Nat :=
  (d.find? (fun kv => kv.1 == k)).map (fun kv => kv.2)

/-- Unfolding lemma for `lookupDict` on a cons cell. -/
theorem lookupDict_cons (a : String × Nat) (t : List (String × Nat)) (k : String) :
    lookupDict (a :: t) k = if a.1 == k then some a.2 else lookupDict t k := by
  by_cases h : a.1 == k
  · simp [lookupDict, List.find?_cons_of_pos, h]
  · simp only [lookupDict, List.find?]
    rw [if_neg h]
    simp [h, lookupDict]

/-- Replacing the value stored under one key leaves every other key alone. -/
theorem lookupDict_replace_ne (d : List (String × Nat)) (k : String) (v : Nat)
    (k2 : String) (hne : k2 ≠ k) :
    lookupDict (d.map (fun kv => if kv.1 == k then (k, v) else kv)) k2 =
      lookupDict d k2 := by
  induction d with
  | nil => rfl
  | cons a t ih =>
    rw [List.map_cons, lookupDict_cons, lookupDict_cons]
    by_cases ha : a.1 == k
    · have ha2 : a.1 = k := eq_of_beq ha
      rw [if_pos ha]
      have hk2 : ((k, v).1 == k2) = false := by
        simp [beq_eq_false_iff_ne]
        exact fun h => hne h.symm
      have hk3 : (a.1 == k2) = false := by
        simp [beq_eq_false_iff_ne, ha2]
        exact fun h => hne h.symm
      rw [hk2, hk3]
      simp only [Bool.false_eq_true, if_false]
      exact ih
    · rw [if_neg ha]
      by_cases hak : a.1 == k2
      · rw [hak]
        simp
      · rw [Bool.eq_false_iff.mpr hak]
        simp only [Bool.false_eq_true, if_false]
        exact ih

/-- Dict assignment stores the given value under the given key and leaves
every other key alone. -/
theorem lookupDict_dictInsert (d : List (String × Nat)) (k : String) (v : Nat)
    (k2 : String) :
    lookupDict (dictInsert d k v) k2 = if k2 = k then some v else lookupDict d k2 := by
  by_cases hk : k2 = k
  · subst hk
    rw [if_pos rfl, dictInsert]
    split_ifs with hany
    · induction d with
      | nil => simp at hany
      | cons a t ih =>
        rw [List.map_cons, lookupDict_cons]
        by_cases ha : a.1 == k2
        · rw [if_pos ha]
          simp
        · rw [if_neg ha]
          simp only [Bool.eq_false_iff.mpr ha, Bool.false_eq_true, if_false]
          exact ih (by simpa [List.any_cons, Bool.eq_false_iff.mpr ha] using hany)
    · rw [lookupDict, List.find?_append]
      have hnone : d.find? (fun kv => kv.1 == k2) = none := by
        rw [List.find?_eq_none]
        intro kv hkv
        intro hbeq
        exact hany (List.any_eq_true.mpr ⟨kv, hkv, hbeq⟩)
      rw [hnone]
      simp [List.find?]
  · rw [if_neg hk, dictInsert]
    split_ifs with hany
    · exact lookupDict_replace_ne d k v k2 hk
    · rw [lookupDict, List.find?_append]
      have hkk : (k == k2) = false :=
        beq_eq_false_iff_ne.mpr (fun h => hk h.symm)
      have hsingle : ([(k, v)].find? (fun kv => kv.1 == k2)) = none := by
        simp [List.find?, hkk]
      rw [hsingle]
      simp [lookupDict]

/-- Replacing the value under a key does not change the key column. -/
theorem keys_map_replace (d : List (String × Nat)) (k : String) (v : Nat) :
    (d.map (fun kv => if kv.1 == k then (k, v) else kv)).map Prod.fst =
      d.map Prod.fst := by
  rw [List.map_map]
  apply List.map_congr_left
  intro kv _
  by_cases h : kv.1 == k
  · simp [h, eq_of_beq h]
  · simp only [Function.comp_apply, Bool.eq_false_iff.mpr h, Bool.false_eq_true,
      if_false]

/-- The key column after a dict assignment: unchanged when the key was
present, extended by the key otherwise. -/
theorem dictInsert_keys (d : List (String × Nat)) (k : String) (v : Nat) :
    (dictInsert d k v).map Prod.fst =
      if d.any (fun kv => kv.1 == k) then d.map Prod.fst
      else d.map Prod.fst ++ [k] := by
  rw [dictInsert]
  split_ifs with h
  · exact keys_map_replace d k v
  · simp

/-- Key membership after a dict assignment. -/
theorem mem_dictInsert_keys (d : List (String × Nat)) (k : String) (v : Nat)
    (k2 : String) :
    k2 ∈ (dictInsert d k v).map Prod.fst ↔ k2 ∈ d.map Prod.fst ∨ k2 = k := by
  rw [dictInsert_keys]
  split_ifs with h
  · constructor
    · exact Or.inl
    · rintro (h1 | rfl)
      · exact h1
      · rcases List.any_eq_true.mp h with ⟨kv, hkv, hbeq⟩
        exact List.mem_map.mpr ⟨kv, hkv, eq_of_beq hbeq⟩
  · simp

/-- Dict assignment preserves distinctness of the key column. -/
theorem nodup_dictInsert_keys (d : List (String × Nat)) (k : String) (v : Nat)
    (h : (d.map Prod.fst).Nodup) : ((dictInsert d k v).map Prod.fst).Nodup := by
  rw [dictInsert_keys]
  split_ifs with hany
  · exact h
  · have hnot : k ∉ d.map Prod.fst := by
      intro hk
      rcases List.mem_map.mp hk with ⟨kv, hkv, hfst⟩
      exact hany (List.any_eq_true.mpr ⟨kv, hkv, beq_of_eq hfst⟩)
    simp [List.nodup_append, h, hnot]

/-- The key column of the collection fold is distinct. -/
theorem foldl_dict_keys_nodup (ps : List (String × Nat)) (d : List (String × Nat))
    (h : (d.map Prod.fst).Nodup) :
    (((ps.foldl (fun acc p => dictInsert acc p.1 p.2) d)).map Prod.fst).Nodup := by
  induction ps generalizing d with
  | nil => exact h
  | cons p t ih => exact ih _ (nodup_dictInsert_keys d p.1 p.2 h)

/-- Key membership across the collection fold. -/
theorem mem_foldl_dict_keys (ps : List (String × Nat)) (d : List (String × Nat))
    (k : String) :
    k ∈ ((ps.foldl (fun acc p => dictInsert acc p.1 p.2) d)).map Prod.fst ↔
      k ∈ d.map Prod.fst ∨ k ∈ ps.map Prod.fst := by
  induction ps generalizing d with
  | nil => simp
  | cons p t ih =>
    rw [List.foldl_cons, ih, mem_dictInsert_keys]
    simp only [List.map_cons, List.mem_cons]
    tauto

/-- Looking a key up after the collection fold returns the value of its last
occurrence among the folded pairs, falling back to the initial dict. -/
theorem foldl_dict_lookup (ps : List (String × Nat)) (d : List (String × Nat))
    (k : String) :
    lookupDict (ps.foldl (fun acc p => dictInsert acc p.1 p.2) d) k =
      ((ps.reverse.find? (fun p => p.1 == k)).map (fun p => some p.2)).getD
        (lookupDict d k) := by
  induction ps generalizing d with
  | nil => simp
  | cons p t ih =>
    rw [List.foldl_cons, ih, List.reverse_cons, List.find?_append]
    cases hf : t.reverse.find? (fun q => q.1 == k) with
    | some q => simp [Option.or]
    | none =>
      simp only [Option.none_or, Option.map_none', Option.getD_none]
      rw [lookupDict_dictInsert]
      by_cases hk : k = p.1
      · subst hk
        simp [List.find?]
      · have hkb : (p.1 == k) = false :=
          beq_eq_false_iff_ne.mpr (fun h => hk h.symm)
        simp [List.find?, hkb, hk]

/-- The main branch of `analyze_consensus`, reached whenever the group list
is nonempty and at least one rating standardizes. -/
theorem analyze_consensus_main (sds : List SourceGroup) (δ : ℚ)
    (hne : sds ≠ []) (hsc : ratingsOf sds ≠ []) :
    analyze_consensus sds δ =
      { consensus_level := consensusLevelOf (ratingsOf sds),
        average_rating := some ((meanQ (ratingsOf sds) : ℚ) : ℝ),
        agreement := agreementOf (ratingsOf sds),
        outliers := outliersOf (sourceRatingsOf sds) (meanQ (ratingsOf sds)) δ,
        source_count := ((sourceRatingsOf sds).map Prod.fst).dedup.length,
        source_ratings := sourceRatingsOf sds } := by
  have he : sds.isEmpty = false := by
    simp [List.isEmpty_eq_false, hne]
  have hre : (ratingsOf sds).isEmpty = false := by
    simp [List.isEmpty_eq_false, hsc]
  simp [analyze_consensus, he, hre]

/-- The dict key count equals the number of distinct publishers among the
scorable results. -/
theorem source_count_eq_distinct (sds : List SourceGroup) :
    ((sourceRatingsOf sds).map Prod.fst).dedup.length =
      ((scorableResults sds).map Prod.fst).toFinset.card := by
  have hnd : ((sourceRatingsOf sds).map Prod.fst).Nodup :=
    foldl_dict_keys_nodup (scorableResults sds) [] (by simp)
  rw [List.Nodup.dedup hnd, ← List.toFinset_card_of_nodup hnd]
  congr 1
  apply Finset.ext
  intro a
  simp only [List.mem_toFinset]
  rw [sourceRatingsOf, mem_foldl_dict_keys]
  simp

/-- The consensus level the claim asserts: the per-publisher scores are the
values of the last-write-wins dict, and the claimed formula applies the
population standard deviation to those scores instead of to the per-result
ratings (definition follows the claim wording, for comparison with the
code). -/
noncomputable def claimedConsensusLevel (sds : List SourceGroup) : ℝ :=
  max 0 (1 - Real.sqrt ((popVarQ ((sourceRatingsOf sds).map (fun p => (p.2 : ℚ))) : ℚ) : ℝ) / 2.5)

/-- A concrete one-group input on which the per-result and per-publisher
computations of C1 disagree: the same publisher contributes the scores 0
(Pants on Fire) and 5 (True). -/
def c1DivergingInput : List SourceGroup :=
  [{ source_name := "PolitiFact Database",
     results := [{ source := "PolitiFact", publisher := "PolitiFact",
                   claim := "a", rating := "Pants on Fire", explanation := "",
                   url := "u1", similarity_score := none, review_date := "",
                   language := "" },
                 { source := "PolitiFact", publisher := "PolitiFact",
                   claim := "b", rating := "True", explanation := "",
                   url := "u2", similarity_score := none, review_date := "",
                   language := "" }] }]

/-- Counterexample to C1 as stated: on `c1DivergingInput` the code computes
mean and standard deviation over the per-result scores 0 and 5, giving
consensus level 0, while the claimed per-publisher computation sees the
single deduplicated score 5 and would give consensus level 1. -/
theorem C1_counterexample :
    (analyze_consensus c1DivergingInput (3 / 2)).consensus_level = 0 ∧
    claimedConsensusLevel c1DivergingInput = 1 ∧
    (analyze_consensus c1DivergingInput (3 / 2)).consensus_level ≠
      claimedConsensusLevel c1DivergingInput := by
  have hsc : scorableResults c1DivergingInput =
      [("PolitiFact", 0), ("PolitiFact", 5)] := by decide
  have hcode : (analyze_consensus c1DivergingInput (3 / 2)).consensus_level = 0 := by
    rw [analyze_consensus_main _ _ (by decide) (by simp [ratingsOf, hsc])]
    show consensusLevelOf _ = 0
    rw [consensusLevelOf_eq]
    have hr : ratingsOf c1DivergingInput = [0, 5] := by
      rw [ratingsOf, hsc]
      norm_num
    rw [hr]
    have hv : effVarQ [(0 : ℚ), 5] = 25 / 4 := by
      norm_num [effVarQ, popVarQ, meanQ]
    rw [hv]
    have hcast : ((25 / 4 : ℚ) : ℝ) = (5 / 2 : ℝ) ^ 2 := by
      push_cast
      norm_num
    rw [hcast, Real.sqrt_sq (by norm_num : (0 : ℝ) ≤ 5 / 2)]
    norm_num
  have hclaim : claimedConsensusLevel c1DivergingInput = 1 := by
    have hsr : sourceRatingsOf c1DivergingInput = [("PolitiFact", 5)] := by decide
    rw [claimedConsensusLevel, hsr]
    have hv : popVarQ [((5 : Nat) : ℚ)] = 0 := by
      norm_num [popVarQ, meanQ]
    simp only [List.map_cons, List.map_nil, hv]
    simp [Real.sqrt_zero]
  refine ⟨hcode, hclaim, ?_⟩
  rw [hcode, hclaim]
  norm_num

/-- C1 amended: on every input with a nonempty group list and at least one
scorable rating, `analyze_consensus` stores one score per distinct publisher
with last-write-wins dict semantics, computes the mean and the population
standard deviation over ALL per-result scores (not over the per-publisher
scores), sets the consensus level to max(0, 1 - std/2.5), classifies the
agreement by the stated thresholds (expressed equivalently as variance
bands), sets the source count to the number of distinct publishers
contributing a scorable rating, and flags as outliers the publishers whose
dict score deviates from the per-result mean by more than the outlier
delta. -/
theorem C1_consensus_amended (sds : List SourceGroup) (δ : ℚ)
    (hne : sds ≠ []) (hsc : ratingsOf sds ≠ []) :
    (∀ name, lookupDict (analyze_consensus sds δ).source_ratings name =
      (((scorableResults sds).reverse.find? (fun p => p.1 == name)).map
        (fun p => some p.2)).getD none) ∧
    (analyze_consensus sds δ).average_rating =
      some (((ratingsOf sds).sum / (ratingsOf sds).length : ℚ) : ℝ) ∧
    (analyze_consensus sds δ).consensus_level =
      max 0 (1 - Real.sqrt ((effVarQ (ratingsOf sds) : ℚ) : ℝ) / 2.5) ∧
    (analyze_consensus sds δ).agreement = classifyVar (effVarQ (ratingsOf sds)) ∧
    (analyze_consensus sds δ).source_count =
      ((scorableResults sds).map Prod.fst).toFinset.card ∧
    (analyze_consensus sds δ).outliers =
      outliersOf (sourceRatingsOf sds) (meanQ (ratingsOf sds)) δ := by
  rw [analyze_consensus_main sds δ hne hsc]
  refine ⟨?_, rfl, consensusLevelOf_eq _, agreementOf_eq_classifyVar _,
    source_count_eq_distinct sds, rfl⟩
  intro name
  show lookupDict (sourceRatingsOf sds) name = _
  rw [sourceRatingsOf, foldl_dict_lookup]
  rfl

/-- Witness for C1 at a concrete two-publisher input: the source count
reported by the code equals the number of distinct publishers with a scorable
rating. -/
theorem C1_witness :
    (analyze_consensus
        [{ source_name := "PolitiFact Database",
           results := [{ source := "PolitiFact", publisher := "PolitiFact",
                         claim := "a", rating := "True", explanation := "",
                         url := "u1", similarity_score := none,
                         review_date := "", language := "" }] },
         { source_name := "External Sources (via Google)",
           results := [{ source := "Multi-Source", publisher := "Snopes",
                         claim := "b", rating := "False", explanation := "",
                         url := "u2", similarity_score := none,
                         review_date := "", language := "en" }] }] (3 / 2)).source_count =
      ((scorableResults
        [{ source_name := "PolitiFact Database",
           results := [{ source := "PolitiFact", publisher := "PolitiFact",
                         claim := "a", rating := "True", explanation := "",
                         url := "u1", similarity_score := none,
                         review_date := "", language := "" }] },
         { source_name := "External Sources (via Google)",
           results := [{ source := "Multi-Source", publisher := "Snopes",
                         claim := "b", rating := "False", explanation := "",
                         url := "u2", similarity_score := none,
                         review_date := "", language := "en" }] }]).map Prod.fst).toFinset.card :=
  (C1_consensus_amended
    [{ source_name := "PolitiFact Database",
       results := [{ source := "PolitiFact", publisher := "PolitiFact",
                     claim := "a", rating := "True", explanation := "",
                     url := "u1", similarity_score := none,
                     review_date := "", language := "" }] },
     { source_name := "External Sources (via Google)",
       results := [{ source := "Multi-Source", publisher := "Snopes",
                     claim := "b", rating := "False", explanation := "",
                     url := "u2", similarity_score := none,
                     review_date := "", language := "en" }] }] (3 / 2)
    (by decide) (by decide)).2.2.2.2.1
